import Mathlib

/-!
Verification development for the InterTalentPortal repository.

The definitions below are a shallow embedding of the TypeScript source:

* `src/src/lib/geospatial.ts` — geocoding, the Haversine distance and the
  radius helpers (`getZipLocation`, `getCityLocation`,
  `getZipCodesWithinRadius`, `getProfilesWithinRadius`, `calculateDistance`);
* `src/src/lib/db/index.ts` (class `AzureSqlDatabase`) — the query builder
  and read operations (`searchProfiles`, `getAllProfiles`, `getProfileById`,
  `deleteProfiles`);
* `src/unnamed/part_004` — the contact-form POST route.

Modelling conventions:

* External network calls (the zippopotam zip API, the Nominatim city
  geocoder) and the injected store failure are represented as oracle
  parameters gathered in `Env`; an oracle returning `none` models a network
  failure, timeout, non-OK response or thrown store error.  The asynchronous
  per-record geocode filter `getProfilesWithinRadius` is likewise an oracle
  field of `Env` inside `searchProfiles` (in the source it is an imported
  `async` function doing network geocoding); the function itself is also
  embedded below over the reals.
* SQL Server string comparison under the default case-insensitive collation
  is modelled by comparing upper-cased strings (`sqlEq`), and `LIKE` by a
  case-insensitive matcher over the `%` and `_` wildcards (`sqlLike`);
  T-SQL `[...]` bracket classes are not modelled (no pattern built by this
  application uses them).
* JavaScript numbers appearing in data (coordinates, radius) are modelled
  as rationals where only arithmetic/comparison on exact decimal literals is
  performed, and as reals for the trigonometric distance computation.
* `console.log`/`console.warn` calls and values computed only for logging
  (the bounding box inside `getZipCodesWithinRadius`) are not modelled.
-/

set_option maxRecDepth 4000

namespace InterTalent

/-- Profile row as defined by the `Profile` type of the database interface
and by the columns consulted in the SQL of `AzureSqlDatabase` (fields not
read by any query under verification — `skills`, `source_file`,
timestamps — are omitted). -/
structure Profile where
  id : String
  first_name : String
  last_initial : String
  city : String
  state : String
  zip_code : String
  professional_summary : String
  office : String
  profession_type : String
  is_active : Bool
deriving DecidableEq, Repr

/-- Type `ZipLocation` of `geospatial.ts`: a postal code (or city label) with an
estimated coordinate and an optionally resolved state abbreviation. -/
structure ZipLocation where
  zip : String
  lat : ℚ
  lng : ℚ
  state : Option String := none
deriving DecidableEq, Repr

/-- JavaScript truthiness of an optional string value (`undefined` and the
empty string are falsy). -/
def truthy : Option String → Bool
  | none => false
  | some s => !s.isEmpty

/-- JavaScript `toUpperCase` (ASCII case mapping, character by
character). -/
def toUpperStr (s : String) : String := ⟨s.data.map Char.toUpper⟩

/-- JavaScript `toLowerCase` (ASCII case mapping, character by
character). -/
def toLowerStr (s : String) : String := ⟨s.data.map Char.toLower⟩

/-- JavaScript `trim`: strip leading and trailing whitespace. -/
def trimStr (s : String) : String :=
  ⟨((s.data.dropWhile Char.isWhitespace).reverse.dropWhile
      Char.isWhitespace).reverse⟩

/-- SQL Server `=` on character data under the default case-insensitive
collation. -/
def sqlEq (a b : String) : Bool := toUpperStr a == toUpperStr b

/-- Fuel-indexed matcher for the SQL `LIKE` wildcards `%` (any sequence)
and `_` (any single character).  Each recursive call decreases
`pattern.length + value.length`, so fuel `pattern.length + value.length + 1`
never runs out and the encoding is total and executable. -/
def likeMatchFuel : Nat → List Char → List Char → Bool
  | 0, _, _ => false
  | _ + 1, [], s => s.isEmpty
  | fuel + 1, '%' :: ps, s =>
      likeMatchFuel fuel ps s ||
        (match s with
         | [] => false
         | _ :: s' => likeMatchFuel fuel ('%' :: ps) s')
  | fuel + 1, '_' :: ps, s =>
      (match s with
       | [] => false
       | _ :: s' => likeMatchFuel fuel ps s')
  | fuel + 1, c :: ps, s =>
      (match s with
       | [] => false
       | c' :: s' => c == c' && likeMatchFuel fuel ps s')

/-- SQL Server `value LIKE pattern` under the default case-insensitive
collation. -/
def sqlLike (pattern value : String) : Bool :=
  let p := (toLowerStr pattern).data
  let v := (toLowerStr value).data
  likeMatchFuel (p.length + v.length + 1) p v

/-- Insertion-order deduplication, as performed by
`Array.from(new Set(...))` in JavaScript (first occurrence wins). -/
def jsDedup (l : List String) : List String :=
  l.foldl (fun acc a => if a ∈ acc then acc else acc ++ [a]) []

/-- JavaScript `parseInt` applied to a short string: the value of the leading decimal
digits, or `none` (JavaScript `NaN`) when the string starts with no digit. -/
def parseLeadingNat (s : String) : Option Nat :=
  let digits := s.data.takeWhile Char.isDigit
  if digits.isEmpty then none
  else some (digits.foldl (fun acc c => acc * 10 + (c.toNat - 48)) 0)

/-- One entry of the `zipRanges` table of `getApproximateZipLocation`:
an inclusive three-digit-prefix range and its representative coordinate. -/
structure ZipRange where
  lo : Nat
  hi : Nat
  lat : ℚ
  lng : ℚ
deriving DecidableEq, Repr

/-- The `zipRanges` object literal of `geospatial.ts`, in source order
(string-keyed JavaScript objects iterate in insertion order). -/
def zipRanges : List ZipRange := [
  ⟨10, 27, 42.0, -71.0⟩,
  ⟨28, 29, 41.8, -71.4⟩,
  ⟨30, 38, 43.0, -71.5⟩,
  ⟨39, 49, 44.5, -69.0⟩,
  ⟨50, 59, 44.0, -72.7⟩,
  ⟨60, 69, 41.6, -72.7⟩,
  ⟨100, 149, 40.7, -74.0⟩,
  ⟨150, 196, 39.9, -75.2⟩,
  ⟨197, 199, 39.3, -76.6⟩,
  ⟨200, 205, 38.9, -77.0⟩,
  ⟨220, 246, 37.5, -77.5⟩,
  ⟨247, 268, 35.8, -78.6⟩,
  ⟨270, 289, 33.7, -84.4⟩,
  ⟨290, 299, 33.5, -86.8⟩,
  ⟨300, 329, 30.3, -81.7⟩,
  ⟨330, 349, 33.5, -86.8⟩,
  ⟨350, 369, 32.3, -86.3⟩,
  ⟨370, 397, 35.5, -86.6⟩,
  ⟨398, 399, 38.2, -85.7⟩,
  ⟨400, 427, 38.2, -85.7⟩,
  ⟨430, 432, 39.96, -82.99⟩,
  ⟨433, 436, 39.76, -84.19⟩,
  ⟨437, 438, 41.08, -81.52⟩,
  ⟨440, 449, 41.5, -81.7⟩,
  ⟨450, 458, 39.76, -86.16⟩,
  ⟨460, 479, 41.9, -87.6⟩,
  ⟨480, 499, 42.3, -83.0⟩,
  ⟨500, 528, 41.6, -93.6⟩,
  ⟨530, 549, 43.1, -89.4⟩,
  ⟨550, 567, 44.9, -93.3⟩,
  ⟨570, 577, 46.8, -100.8⟩,
  ⟨580, 588, 46.8, -100.8⟩,
  ⟨590, 599, 46.6, -112.0⟩,
  ⟨600, 629, 41.3, -96.0⟩,
  ⟨630, 658, 38.6, -90.2⟩,
  ⟨660, 679, 39.1, -94.6⟩,
  ⟨680, 699, 41.3, -96.0⟩,
  ⟨700, 729, 29.8, -95.4⟩,
  ⟨730, 749, 35.5, -97.5⟩,
  ⟨750, 799, 31.8, -99.9⟩,
  ⟨800, 816, 39.7, -104.9⟩,
  ⟨820, 831, 42.9, -106.3⟩,
  ⟨832, 838, 43.5, -112.0⟩,
  ⟨840, 847, 40.8, -111.9⟩,
  ⟨850, 865, 33.4, -112.1⟩,
  ⟨870, 884, 35.1, -106.6⟩,
  ⟨885, 898, 36.1, -115.2⟩,
  ⟨889, 891, 36.1, -115.2⟩,
  ⟨900, 961, 34.0, -118.2⟩,
  ⟨970, 979, 45.5, -122.7⟩,
  ⟨980, 994, 47.6, -122.3⟩,
  ⟨995, 999, 61.2, -149.9⟩]

/-- Function `getApproximateZipLocation` of `geospatial.ts`: approximate coordinate
from the first three digits of the zip code, or `none` when the prefix
falls in no known range. -/
def getApproximateZipLocation (zipCode : String) : Option ZipLocation :=
  if zipCode.length < 3 then none
  else
    match parseLeadingNat (zipCode.take 3) with
    | none => none
    | some pfx =>
      match zipRanges.find? (fun e => e.lo ≤ pfx && pfx ≤ e.hi) with
      | some e => some { zip := zipCode, lat := e.lat, lng := e.lng }
      | none => none

/-- First place of a successful zippopotam API response (latitude,
longitude and the `state abbreviation` field of `data.places[0]`). -/
structure ZipApiPlace where
  latitude : ℚ
  longitude : ℚ
  stateAbbreviation : Option String := none
deriving DecidableEq, Repr

/-- Function `getZipLocation` of `geospatial.ts`: the API result when the external
lookup succeeds (oracle `api` returns `some`), otherwise — network failure,
timeout, non-OK status or empty `places`, all swallowed by the source —
the approximate prefix table. -/
def getZipLocation (api : String → Option ZipApiPlace) (zipCode : String) :
    Option ZipLocation :=
  match api zipCode with
  | some place =>
      some { zip := zipCode, lat := place.latitude, lng := place.longitude,
             state := place.stateAbbreviation }
  | none => getApproximateZipLocation zipCode

/-- One Nominatim search result: its coordinate and the `address.state`
field when present. -/
structure NominatimResult where
  addressState : Option String := none
  lat : ℚ
  lon : ℚ
deriving DecidableEq, Repr

/-- The state-match test of `getCityLocation`: `address.state` upper-cased
equals the requested state upper-cased, or its first two characters do. -/
def nominatimStateMatches (state : String) (r : NominatimResult) : Bool :=
  match r.addressState with
  | some s => toUpperStr s == toUpperStr state || toUpperStr (s.take 2) == toUpperStr state
  | none => false

/-- Function `getCityLocation` of `geospatial.ts`.  The `nominatim` oracle maps the
query string to the parsed result list (`none` models a failed or non-OK
request).  With a truthy state constraint the first result whose address
state matches is used and `none` is returned when no result matches;
without one the first result is used. -/
def getCityLocation (nominatim : String → Option (List NominatimResult))
    (city : String) (state : Option String) : Option ZipLocation :=
  let st := state.getD ""
  let query := if truthy state then city ++ ", " ++ st ++ ", USA"
               else city ++ ", USA"
  match nominatim query with
  | none => none
  | some data =>
    if 0 < data.length then
      if truthy state then
        match data.find? (nominatimStateMatches st) with
        | some bestMatch =>
            some { zip := city ++ ", " ++ st, lat := bestMatch.lat,
                   lng := bestMatch.lon }
        | none => none
      else
        match data.head? with
        | some bestMatch =>
            some { zip := city ++ ", USA", lat := bestMatch.lat,
                   lng := bestMatch.lon }
        | none => none
    else none

/-- Function `getZipCodesWithinRadius` of `geospatial.ts`: geocode the center (or
report failure), then — since no zip-code radius API is configured in this
build — return `null` so that the caller falls back.  The bounding-box
numbers computed in the source feed only a log line and are omitted. -/
def getZipCodesWithinRadius (api : String → Option ZipApiPlace)
    (centerZip : String) (radiusMiles : ℚ) : Option (List String) :=
  match getZipLocation api centerZip with
  | none => none
  | some _center => none

/-- Function `toRad` of `geospatial.ts`: degrees to radians. -/
noncomputable def toRad (degrees : ℝ) : ℝ := degrees * Real.pi / 180

/-- JavaScript `Math.atan2 y x`: the principal argument of the complex
number `x + y*i`. -/
noncomputable def atan2 (y x : ℝ) : ℝ := Complex.arg ⟨x, y⟩

/-- Function `calculateDistance` of `geospatial.ts`: Haversine great-circle distance
in miles (Earth radius 3959), over the idealized real semantics of the
JavaScript number operations. -/
noncomputable def calculateDistance (lat1 lng1 lat2 lng2 : ℝ) : ℝ :=
  3959 *
    (2 * atan2
      (Real.sqrt
        (Real.sin (toRad (lat2 - lat1) / 2) * Real.sin (toRad (lat2 - lat1) / 2) +
          Real.cos (toRad lat1) * Real.cos (toRad lat2) *
            (Real.sin (toRad (lng2 - lng1) / 2) * Real.sin (toRad (lng2 - lng1) / 2))))
      (Real.sqrt
        (1 -
          (Real.sin (toRad (lat2 - lat1) / 2) * Real.sin (toRad (lat2 - lat1) / 2) +
            Real.cos (toRad lat1) * Real.cos (toRad lat2) *
              (Real.sin (toRad (lng2 - lng1) / 2) * Real.sin (toRad (lng2 - lng1) / 2))))))

/-- Function `getProfilesWithinRadius` of `geospatial.ts`: geocode the center (unless
coordinates are supplied), geocode each candidate's zip code, keep the ids
of candidates whose distance to the center is within the radius; candidates
that fail to geocode are excluded, and an ungeocodable center yields the
empty id list. -/
noncomputable def getProfilesWithinRadius (api : String → Option ZipApiPlace)
    (centerLocation : String) (radiusMiles : ℚ) (profileData : List Profile)
    (centerCoords : Option ZipLocation := none) : List String :=
  let centerLocationData :=
    match centerCoords with
    | some c => some c
    | none => getZipLocation api centerLocation
  match centerLocationData with
  | none => []
  | some center =>
    (profileData.filter (fun profile =>
      match getZipLocation api profile.zip_code with
      | none => false
      | some location =>
        letI : Decidable
            (calculateDistance center.lat center.lng location.lat location.lng
              ≤ (radiusMiles : ℝ)) := Classical.propDecidable _
        decide (calculateDistance center.lat center.lng location.lat location.lng
          ≤ (radiusMiles : ℝ)))).map (fun p => p.id)

/-- The `sortBy` values accepted by the read operations. -/
inductive SortBy where
  | name
  | location
  | profession
deriving DecidableEq, Repr

/-- The `sortDirection` values. -/
inductive SortDir where
  | asc
  | desc
deriving DecidableEq, Repr

/-- Type `ProfileSearchParams` of the database interface, with the destructuring
defaults of `searchProfiles` (`page = 1`, `limit = 20`, `sortBy = 'name'`,
`sortDirection = 'asc'`). -/
structure SearchParams where
  query : Option String := none
  keywords : Option (List String) := none
  professionTypes : Option (List String) := none
  city : Option String := none
  state : Option String := none
  zipCode : Option String := none
  zipCodes : Option (List String) := none
  radius : Option ℚ := none
  office : Option String := none
  page : Nat := 1
  limit : Nat := 20
  sortBy : SortBy := .name
  sortDirection : SortDir := .asc

/-- Type `PaginatedProfiles` of the database interface. -/
structure PaginatedProfiles where
  profiles : List Profile
  total : Nat
  page : Nat
  limit : Nat
  totalPages : Nat
deriving DecidableEq, Repr

/-- The environment of one `searchProfiles` request: the profile store and
the external collaborators.  `profilesWithin` is the imported asynchronous
`getProfilesWithinRadius` (center label, radius, candidate rows, optional
pre-geocoded center coordinates); `preFilterThrows` injects a thrown store
error for the pre-filter query of the radius fallback (caught by the
surrounding `try`/`catch` in the source). -/
structure Env where
  table : List Profile
  api : String → Option ZipApiPlace := fun _ => none
  nominatim : String → Option (List NominatimResult) := fun _ => none
  profilesWithin : String → ℚ → List Profile → Option ZipLocation → List String :=
    fun _ _ _ _ => []
  preFilterThrows : Bool := false

/-- The `ORDER BY` column for a `sortBy` value (the `switch` of the source). -/
def sortColumnKey (sortBy : SortBy) (p : Profile) : String :=
  match sortBy with
  | .name => p.first_name
  | .location => p.city
  | .profession => p.profession_type

/-- Ordered insertion for the insertion sort modelling `ORDER BY`. -/
def orderedInsert (le : Profile → Profile → Bool) (a : Profile) :
    List Profile → List Profile
  | [] => [a]
  | b :: l => if le a b then a :: b :: l else b :: orderedInsert le a l

/-- Insertion sort over a boolean comparator. -/
def insertionSortB (le : Profile → Profile → Bool) : List Profile → List Profile
  | [] => []
  | a :: l => orderedInsert le a (insertionSortB le l)

/-- Semantics of `ORDER BY <column> <direction>`: a sort of the matched rows by the sort
column.  SQL Server guarantees no particular order among rows with equal
keys and compares strings by collation; any total preorder consistent with
a string order is an admissible model, and Lean's `compare` is used. -/
def orderProfiles (sortBy : SortBy) (dir : SortDir) (l : List Profile) :
    List Profile :=
  insertionSortB
    (fun a b =>
      match dir with
      | .asc => (compare (sortColumnKey sortBy a) (sortColumnKey sortBy b)).isLE
      | .desc => (compare (sortColumnKey sortBy b) (sortColumnKey sortBy a)).isLE)
    l

/-- The `COUNT` + `OFFSET`/`FETCH` execution of a condition list joined with
`AND`: the count query and the data query see the identical predicate, and
`totalPages = Math.ceil(total / limit)`. -/
def runQuery (table : List Profile) (conds : List (Profile → Bool))
    (sortBy : SortBy) (dir : SortDir) (page limit offset : Nat) :
    PaginatedProfiles :=
  let matched := table.filter (fun p => conds.all (fun c => c p))
  { profiles := ((orderProfiles sortBy dir matched).drop offset).take limit
    total := matched.length
    page := page
    limit := limit
    totalPages := (matched.length + limit - 1) / limit }

/-- The empty page returned by the short-circuits of `searchProfiles`. -/
def emptyPage (page limit : Nat) : PaginatedProfiles :=
  { profiles := [], total := 0, page := page, limit := limit, totalPages := 0 }

/-- Value `keywordsToSearch` of `searchProfiles`:
`keywords && keywords.length > 0 ? keywords : query ? [query] : []`. -/
def keywordsToSearch (params : SearchParams) : List String :=
  match params.keywords with
  | some ks =>
    if 0 < ks.length then ks
    else match params.query with
      | some q => if q.isEmpty then [] else [q]
      | none => []
  | none =>
    match params.query with
    | some q => if q.isEmpty then [] else [q]
    | none => []

/-- Condition `is_active = 1`, the base condition of every search query. -/
def isActiveCond (p : Profile) : Bool := p.is_active

/-- One keyword's condition: the `%kw.trim()%` pattern `LIKE`-matched
against professional summary, first name, last initial and city. -/
def kwFieldCond (kw : String) (p : Profile) : Bool :=
  let pat := "%" ++ trimStr kw ++ "%"
  sqlLike pat p.professional_summary || sqlLike pat p.first_name ||
    sqlLike pat p.last_initial || sqlLike pat p.city

/-- Keyword conditions joined with `OR`. -/
def kwCond (kws : List String) (p : Profile) : Bool :=
  kws.any (fun kw => kwFieldCond kw p)

/-- Profession conditions joined with `OR`: `profession_type LIKE @prof`
where the parameter value is the profession string itself (no `%`
wrapping in `searchProfiles`). -/
def profCond (ps : List String) (p : Profile) : Bool :=
  ps.any (fun prof => sqlLike prof p.profession_type)

/-- Condition `office = @office` (pushed only for a truthy office). -/
def officeCondList : Option String → List (Profile → Bool)
  | some o => if o.isEmpty then [] else [fun p => sqlEq p.office o]
  | none => []

/-- The keyword condition list (pushed only when some keyword exists). -/
def kwCondList (kws : List String) : List (Profile → Bool) :=
  if kws.isEmpty then [] else [kwCond kws]

/-- The profession condition list (pushed only for a non-empty array). -/
def profCondList : Option (List String) → List (Profile → Bool)
  | some ps => if 0 < ps.length then [profCond ps] else []
  | none => []

/-- Value `centerZipCodes`: the deduplicated aggregation of `zipCode` and
`zipCodes` (`Array.from(new Set([...(zipCode ? [zipCode] : []), ...]))`). -/
def centerZips (params : SearchParams) : List String :=
  jsDedup
    ((match params.zipCode with
      | some z => if z.isEmpty then [] else [z]
      | none => []) ++
     (match params.zipCodes with
      | some zs => if 0 < zs.length then zs else []
      | none => []))

/-- The `stateFilter` value after the derivation step of lines 316–330 of
`db/index.ts`: the request state if truthy, otherwise — when center zip
codes exist — the state geocoded from the first center zip code.  The
source computes this value but never consults it afterwards: the only read
of `stateFilter` (the city pre-filter) is in the branch where no center
zip codes exist, so there it always equals the request state, and the
radius fallback of line 623 tests the request `state` instead. -/
def derivedStateFilter (env : Env) (state : Option String)
    (centers : List String) : Option String :=
  if truthy state then state
  else
    match centers.head? with
    | some z0 =>
      (match getZipLocation env.api z0 with
       | some loc => if truthy loc.state then loc.state else state
       | none => state)
    | none => state

/-- Tier 2 of the radius resolver: the deduplicated union of
`getZipCodesWithinRadius` over all centers (`Promise.all` then
`flatMap(zips => zips ?? [])` then `Array.from(new Set(...))`). -/
def tier2Zips (env : Env) (radius : ℚ) (centers : List String) : List String :=
  jsDedup
    (List.flatten
      ((centers.map (fun centerZip => getZipCodesWithinRadius env.api centerZip radius)).map
        (fun zips => zips.getD [])))

/-- Conditions of the pre-filter query in the zip-centered radius fallback:
`is_active`, professions, keywords and office — deliberately no state or
city filter (lines 373–416 of `db/index.ts`). -/
def zipPreConds (params : SearchParams) (kws : List String) :
    List (Profile → Bool) :=
  [isActiveCond] ++ profCondList params.professionTypes ++ kwCondList kws ++
    officeCondList params.office

/-- The extra location conditions of the city-branch pre-filter (lines
515–525): `state = stateFilter.toUpperCase()` when both state and city are
truthy, else `city LIKE %city%` when only the city is truthy.  In this
branch no center zip codes exist, so `stateFilter` equals the request
state (see `derivedStateFilter`). -/
def cityPreLocConds (params : SearchParams) : List (Profile → Bool) :=
  if truthy params.state && truthy params.city then
    [fun p => sqlEq p.state (toUpperStr (params.state.getD ""))]
  else if truthy params.city && !truthy params.state then
    [fun p => sqlLike ("%" ++ params.city.getD "" ++ "%") p.city]
  else []

/-- Conditions of the pre-filter query in the city-based radius branch. -/
def cityPreConds (params : SearchParams) (kws : List String) :
    List (Profile → Bool) :=
  zipPreConds params kws ++ cityPreLocConds params

/-- The candidate set of the zip-centered radius fallback. -/
def preFilterZip (env : Env) (params : SearchParams) (kws : List String) :
    List Profile :=
  env.table.filter (fun p => (zipPreConds params kws).all (fun c => c p))

/-- The candidate set of the city-based radius branch. -/
def preFilterCity (env : Env) (params : SearchParams) (kws : List String) :
    List Profile :=
  env.table.filter (fun p => (cityPreConds params kws).all (fun c => c p))

/-- Outcome of the radius-resolution block of `searchProfiles`: either an
immediate empty page, or extra `AND` conditions together with the
`radiusSearchSucceeded` flag. -/
inductive RadiusOutcome where
  | earlyEmpty
  | conds (extra : List (Profile → Bool)) (succeeded : Bool)

/-- Tier 3 for zip centers (lines 372–475): pre-filter the candidates by
the non-location filters, take the union over all centers of the ids
within radius, short-circuit to empty when the candidates or the union are
empty, else constrain the main query to `id IN (...)`.  A thrown pre-filter
query is caught by the surrounding `try` and leaves the radius search
unsucceeded.  (The inner `catch (radiusError)` handler is unreachable in
this model because the geocode filter is total: `getProfilesWithinRadius`
swallows every network error.) -/
def zipTier3 (env : Env) (radius : ℚ) (centers : List String)
    (params : SearchParams) (kws : List String) : RadiusOutcome :=
  if env.preFilterThrows then .conds [] false
  else
    let pre := preFilterZip env params kws
    if 0 < pre.length then
      let ids := jsDedup
        (List.flatten (centers.map (fun centerZip =>
          env.profilesWithin centerZip radius pre none)))
      if ids.length = 0 then .earlyEmpty
      else .conds [fun p => ids.contains p.id] true
    else .earlyEmpty

/-- The city-based radius branch (lines 479–587): pre-filter (including the
state/city narrowing), then geocode the city; a failed geocode keeps the
whole pre-filtered candidate set, a successful one filters it by distance;
an empty candidate set or an empty id set short-circuits to the empty
page.  (The inner `catch (geoError)` handler is unreachable in this model
because `getCityLocation` swallows every network error.) -/
def cityRadiusBranch (env : Env) (radius : ℚ) (params : SearchParams)
    (kws : List String) : RadiusOutcome :=
  if env.preFilterThrows then .conds [] false
  else
    let pre := preFilterCity env params kws
    if 0 < pre.length then
      let cityName := params.city.getD ""
      let ids : List String :=
        match getCityLocation env.nominatim cityName params.state with
        | none => pre.map (fun p => p.id)
        | some centerCoords =>
            env.profilesWithin cityName radius pre (some centerCoords)
      if ids.length = 0 then .earlyEmpty
      else .conds [fun p => ids.contains p.id] true
    else .earlyEmpty

/-- The whole radius-resolution block for an active radius: zip centers use
tier 2 then tier 3; otherwise a truthy city uses the city branch; with
neither, no tier runs and the radius search is attempted but
unsucceeded. -/
def radiusBranch (env : Env) (radius : ℚ) (params : SearchParams)
    (kws : List String) : RadiusOutcome :=
  let centers := centerZips params
  if 0 < centers.length then
    let nearby := tier2Zips env radius centers
    if 0 < nearby.length then
      .conds [fun p => nearby.any (fun z => sqlEq p.zip_code z)] true
    else zipTier3 env radius centers params kws
  else if truthy params.city then cityRadiusBranch env radius params kws
  else .conds [] false

/-- The non-radius zip conditions (the `else if` chain of lines 588–603):
`zip_code IN (...)` for a non-empty `zipCodes` array, else `zip_code = @z`
for a truthy legacy `zipCode`. -/
def nonRadiusZipConds (params : SearchParams) : List (Profile → Bool) :=
  match params.zipCodes with
  | some zs =>
    if 0 < zs.length then [fun p => zs.any (fun z => sqlEq p.zip_code z)]
    else
      (match params.zipCode with
       | some z => if z.isEmpty then [] else [fun p => sqlEq p.zip_code z]
       | none => [])
  | none =>
    match params.zipCode with
    | some z => if z.isEmpty then [] else [fun p => sqlEq p.zip_code z]
    | none => []

/-- The plain location filters applied only when no radius search runs
(lines 605–618): `city LIKE %city%` and `state = state.toUpperCase()`. -/
def nonRadiusLocConds (params : SearchParams) : List (Profile → Bool) :=
  (match params.city with
   | some c => if c.isEmpty then [] else [fun p => sqlLike ("%" ++ c ++ "%") p.city]
   | none => []) ++
  (match params.state with
   | some s => if s.isEmpty then [] else [fun p => sqlEq p.state (toUpperStr s)]
   | none => [])

/-- The state-only fallback (lines 620–627): when a radius search was
attempted and did not succeed, `state = state.toUpperCase()` is pushed —
only for a truthy request `state`; the derived `stateFilter` is not
consulted here. -/
def fallbackConds (params : SearchParams) (succeeded : Bool) :
    List (Profile → Bool) :=
  if !succeeded && truthy params.state then
    [fun p => sqlEq p.state (toUpperStr (params.state.getD ""))]
  else []

/-- The guard `radius && radius > 0` of `searchProfiles`: the radius value
when a radius search is active, `none` otherwise. -/
def activeRadius (params : SearchParams) : Option ℚ :=
  match params.radius with
  | some r => if 0 < r then some r else none
  | none => none

/-- The conditions pushed before the radius block: base `is_active = 1`,
then keywords, then professions (lines 257–290). -/
def searchConds0 (params : SearchParams) : List (Profile → Bool) :=
  [isActiveCond] ++ kwCondList (keywordsToSearch params) ++
    profCondList params.professionTypes

/-- Method `searchProfiles` of `AzureSqlDatabase`: dynamic `WHERE` construction
(base `is_active = 1`, keywords, professions), the radius-resolution block
with its empty-page short-circuits, the non-radius location filters, the
state fallback, the office filter, then one count + one paginated fetch
over the identical predicate. -/
def searchProfiles (env : Env) (params : SearchParams) : PaginatedProfiles :=
  match activeRadius params with
  | some r =>
    (match radiusBranch env r params (keywordsToSearch params) with
     | .earlyEmpty => emptyPage params.page params.limit
     | .conds extra succeeded =>
       runQuery env.table
         (searchConds0 params ++ extra ++ fallbackConds params succeeded ++
           officeCondList params.office)
         params.sortBy params.sortDirection params.page params.limit
         ((params.page - 1) * params.limit))
  | none =>
    runQuery env.table
      (searchConds0 params ++ nonRadiusZipConds params ++
        nonRadiusLocConds params ++ officeCondList params.office)
      params.sortBy params.sortDirection params.page params.limit
      ((params.page - 1) * params.limit)

/-- Method `getAllProfiles` of `AzureSqlDatabase`: all active profiles, sorted and
paginated, with the count over the identical `is_active = 1` predicate. -/
def getAllProfiles (table : List Profile) (page : Nat := 1) (limit : Nat := 20)
    (sortBy : SortBy := .name) (sortDirection : SortDir := .asc) :
    PaginatedProfiles :=
  runQuery table [isActiveCond] sortBy sortDirection page limit
    ((page - 1) * limit)

/-- Method `getProfileById` of `AzureSqlDatabase`: `WHERE id = @id AND
is_active = 1`, `null` on an empty record set.  The `uniqueidentifier`
column compares by value, modelled as plain string equality. -/
def getProfileById (table : List Profile) (id : String) : Option Profile :=
  (table.filter (fun p => p.id == id && p.is_active)).head?

/-- Method `deleteProfiles` of `AzureSqlDatabase`: soft delete — `UPDATE profiles
SET is_active = 0 WHERE id = @id` for each id. -/
def deleteProfiles (table : List Profile) (ids : List String) : List Profile :=
  table.map (fun p => if p.id ∈ ids then { p with is_active := false } else p)

/-- The parsed JSON body of a contact-form submission (`POST /api/contact`);
absent fields are `none`. -/
structure ContactBody where
  profileId : Option String := none
  profileName : Option String := none
  location : Option String := none
  officeEmail : Option String := none
  name : Option String := none
  email : Option String := none
  phone : Option String := none
  comment : Option String := none
deriving DecidableEq, Repr

/-- Observable outcome of the contact `POST` handler: HTTP status, the
error message of the JSON body if any, and the destination address of the
attempted email send (`none` when `sendContactEmail` is never invoked). -/
structure ContactOutcome where
  status : Nat
  errorMsg : Option String
  emailTo : Option String
deriving DecidableEq, Repr

/-- The `toEmail` resolution of the handler: start from the provided
`officeEmail`; for a truthy `location` try the location-email lookup
(`locationEmail` oracle; `none` models a thrown lookup, which keeps the
provided email). -/
def resolveToEmail (locationEmail : String → Option String)
    (body : ContactBody) : Option String :=
  if truthy body.location then
    match locationEmail (body.location.getD "") with
    | some e => some e
    | none => body.officeEmail
  else body.officeEmail

/-- The contact `POST` handler of `src/unnamed/part_004` on a parsed body:
missing required fields (`!name || !email || !comment || !profileName`)
yield HTTP 400 with `Missing required fields` and no email send; otherwise
the email is sent to the resolved address (defaulting to
`info@intersolutions.com` when falsy) and the handler reports success even
when the send itself fails (`emailSendSucceeds` does not affect the
response). -/
def contactPOST (locationEmail : String → Option String)
    (emailSendSucceeds : Bool) (body : ContactBody) : ContactOutcome :=
  if !(truthy body.name && truthy body.email && truthy body.comment &&
      truthy body.profileName) then
    { status := 400, errorMsg := some "Missing required fields", emailTo := none }
  else
    let toEmail := resolveToEmail locationEmail body
    let _ := emailSendSucceeds
    { status := 200, errorMsg := none,
      emailTo := some (if truthy toEmail then toEmail.getD ""
                       else "info@intersolutions.com") }

/-- Case-insensitive substring test, worded from the specification's
"contains-match (case-insensitive)" for profession types; kept distinct
from the source-derived `sqlLike` predicate so the two can be compared. -/
def ciContainsSpec (haystack needle : String) : Bool :=
  let h := (toLowerStr haystack).data
  let n := (toLowerStr needle).data
  (List.range (h.length + 1)).any (fun i => (h.drop i).take n.length == n)

/-- The profession predicate as the specification words it for C4: the OR,
over the listed professions, of a case-insensitive contains-match against
the profile's profession type. -/
def professionContainsSpec (professionTypes : List String)
    (professionType : String) : Bool :=
  professionTypes.any (fun prof => ciContainsSpec professionType prof)

/-! ## Helper lemmas -/

theorem mem_orderedInsert (le : Profile → Profile → Bool) (a p : Profile)
    (l : List Profile) : p ∈ orderedInsert le a l ↔ p ∈ a :: l := by
  induction l with
  | nil => simp [orderedInsert]
  | cons b t ih =>
    simp only [orderedInsert]
    split
    · simp
    · simp only [List.mem_cons, ih]
      tauto

theorem mem_insertionSortB (le : Profile → Profile → Bool) (p : Profile)
    (l : List Profile) : p ∈ insertionSortB le l ↔ p ∈ l := by
  induction l with
  | nil => simp [insertionSortB]
  | cons a t ih => simp [insertionSortB, mem_orderedInsert, ih]

theorem mem_orderProfiles (sortBy : SortBy) (dir : SortDir) (p : Profile)
    (l : List Profile) : p ∈ orderProfiles sortBy dir l ↔ p ∈ l := by
  simp [orderProfiles, mem_insertionSortB]

theorem length_orderedInsert (le : Profile → Profile → Bool) (a : Profile)
    (l : List Profile) : (orderedInsert le a l).length = l.length + 1 := by
  induction l with
  | nil => rfl
  | cons b t ih =>
    simp only [orderedInsert]
    split
    · rfl
    · simp [ih]

theorem length_insertionSortB (le : Profile → Profile → Bool)
    (l : List Profile) : (insertionSortB le l).length = l.length := by
  induction l with
  | nil => rfl
  | cons a t ih => simp [insertionSortB, length_orderedInsert, ih]

theorem mem_runQuery {table : List Profile} {conds : List (Profile → Bool)}
    {sortBy : SortBy} {dir : SortDir} {page limit offset : Nat} {p : Profile}
    (hp : p ∈ (runQuery table conds sortBy dir page limit offset).profiles) :
    p ∈ table ∧ ∀ c ∈ conds, c p = true := by
  simp only [runQuery] at hp
  have h1 : p ∈ orderProfiles sortBy dir
      (table.filter (fun q => conds.all (fun c => c q))) :=
    (List.drop_sublist _ _).mem ((List.take_sublist _ _).mem hp)
  have h3 := List.mem_filter.mp ((mem_orderProfiles _ _ _ _).mp h1)
  exact ⟨h3.1, fun c hc => List.all_eq_true.mp h3.2 c hc⟩

theorem getZipCodesWithinRadius_eq_none
    (api : String → Option ZipApiPlace) (centerZip : String)
    (radiusMiles : ℚ) : getZipCodesWithinRadius api centerZip radiusMiles = none := by
  unfold getZipCodesWithinRadius
  cases getZipLocation api centerZip <;> rfl

theorem tier2Zips_eq_nil (env : Env) (radius : ℚ) (centers : List String) :
    tier2Zips env radius centers = [] := by
  unfold tier2Zips
  have h : List.flatten
      ((centers.map (fun centerZip => getZipCodesWithinRadius env.api centerZip radius)).map
        (fun zips => zips.getD [])) = [] := by
    induction centers with
    | nil => rfl
    | cons c t ih =>
      simp only [List.map_cons, List.flatten_cons, getZipCodesWithinRadius_eq_none,
        Option.getD_none, List.nil_append] at ih ⊢
      exact ih
  rw [h]
  rfl

theorem radiusBranch_zip (env : Env) (radius : ℚ) (params : SearchParams)
    (kws : List String) (hc : 0 < (centerZips params).length) :
    radiusBranch env radius params kws =
      zipTier3 env radius (centerZips params) params kws := by
  unfold radiusBranch
  rw [if_pos hc, tier2Zips_eq_nil]
  rfl

theorem radiusBranch_throws (env : Env) (radius : ℚ) (params : SearchParams)
    (kws : List String) (h : env.preFilterThrows = true) :
    radiusBranch env radius params kws = .conds [] false := by
  unfold radiusBranch
  by_cases hc : 0 < (centerZips params).length
  · rw [if_pos hc, tier2Zips_eq_nil]
    simp only [List.length_nil, lt_irrefl, if_false]
    unfold zipTier3
    rw [h]
    rfl
  · rw [if_neg hc]
    by_cases hcity : truthy params.city = true
    · rw [hcity]
      simp only [if_true]
      unfold cityRadiusBranch
      rw [h]
      rfl
    · rw [Bool.not_eq_true] at hcity
      rw [hcity]
      rfl

theorem mem_runQuery_filter {table : List Profile}
    {conds : List (Profile → Bool)} {sortBy : SortBy} {dir : SortDir}
    {page limit offset : Nat} {p : Profile}
    (hp : p ∈ (runQuery table conds sortBy dir page limit offset).profiles) :
    p ∈ table.filter (fun q => conds.all (fun c => c q)) := by
  simp only [runQuery] at hp
  exact (mem_orderProfiles _ _ _ _).mp
    ((List.drop_sublist _ _).mem ((List.take_sublist _ _).mem hp))

/-! ## Concrete fixtures used by witnesses and counterexamples -/

/-- An active California profile. -/
def pAnn : Profile where
  id := "A"
  first_name := "Ann"
  last_initial := "B"
  city := "Fresno"
  state := "CA"
  zip_code := "93701"
  professional_summary := "Leasing consultant"
  office := "West"
  profession_type := "Leasing Consultant"
  is_active := true

/-- An active profile whose profession type strictly contains `Manager`. -/
def pMgr : Profile := { pAnn with id := "M", profession_type := "Senior Property Manager" }

/-- A zippopotam response for the Ohio zip code 44289. -/
def ohioPlace : ZipApiPlace where
  latitude := 41.5
  longitude := -81.7
  stateAbbreviation := some "OH"

/-! ## Claim theorems -/

/-- C5: for every center zip code and radius, `getZipCodesWithinRadius`
returns `null` (no bulk zip-radius service is configured in this build), so
the bulk postal-code tier never produces a `zip_code IN` constraint and
every zip-centered radius search falls through to the per-record geocode
tier (`zipTier3`). -/
theorem bulk_zip_tier_unavailable :
    (∀ (api : String → Option ZipApiPlace) (centerZip : String) (radiusMiles : ℚ),
        getZipCodesWithinRadius api centerZip radiusMiles = none) ∧
    (∀ (env : Env) (radius : ℚ) (params : SearchParams) (kws : List String),
        0 < (centerZips params).length →
        radiusBranch env radius params kws =
          zipTier3 env radius (centerZips params) params kws) := by
  exact ⟨getZipCodesWithinRadius_eq_none, radiusBranch_zip⟩

def envW5 : Env := { table := [pAnn] }

def paramsW5 : SearchParams := { radius := some 25, zipCode := some "44289" }

theorem bulk_zip_tier_unavailable_witness :
    0 < (centerZips paramsW5).length ∧
    radiusBranch envW5 25 paramsW5 [] =
      zipTier3 envW5 25 (centerZips paramsW5) paramsW5 [] :=
  ⟨by decide, bulk_zip_tier_unavailable.2 envW5 25 paramsW5 [] (by decide)⟩

/-- C6: for a city geocoding request with a (truthy) state constraint whose
query the geocoder answers with `data`, `getCityLocation` returns a
coordinate only when some result's address state matches the requested
state (and then returns that result's coordinate); when no result matches
it returns `none`, never a coordinate from a different state. -/
theorem getCityLocation_state_constraint
    (nominatim : String → Option (List NominatimResult)) (city st : String)
    (data : List NominatimResult) (hst : st ≠ "")
    (hq : nominatim (city ++ ", " ++ st ++ ", USA") = some data) :
    (∀ loc, getCityLocation nominatim city (some st) = some loc →
        ∃ res ∈ data, nominatimStateMatches st res = true ∧
          loc.lat = res.lat ∧ loc.lng = res.lon) ∧
    ((∀ res ∈ data, nominatimStateMatches st res = false) →
        getCityLocation nominatim city (some st) = none) := by
  have htr : truthy (some st) = true := by
    simp only [truthy, Bool.not_eq_true']
    exact Bool.eq_false_iff.mpr (fun h => hst ((String.isEmpty_iff st).mp h))
  unfold getCityLocation
  simp only [htr, Option.getD_some, if_true, hq]
  constructor
  · intro loc hloc
    by_cases hlen : 0 < data.length
    · rw [if_pos hlen] at hloc
      cases hfind : data.find? (nominatimStateMatches st) with
      | none => rw [hfind] at hloc; cases hloc
      | some res =>
        rw [hfind] at hloc
        refine ⟨res, List.mem_of_find?_eq_some hfind, List.find?_some hfind, ?_, ?_⟩
        · cases hloc; rfl
        · cases hloc; rfl
    · rw [if_neg hlen] at hloc; cases hloc
  · intro hall
    by_cases hlen : 0 < data.length
    · rw [if_pos hlen]
      have hfind : data.find? (nominatimStateMatches st) = none :=
        List.find?_eq_none.mpr (fun res hres => by simp [hall res hres])
      rw [hfind]
    · rw [if_neg hlen]

/-- The Nominatim oracle of the C6 witness: one California result for the
query `Austin, TX, USA`. -/
def nominatimW6 : String → Option (List NominatimResult) := fun q =>
  if q = "Austin, TX, USA" then
    some [{ addressState := some "California", lat := 37, lon := -120 }]
  else none

theorem getCityLocation_state_constraint_witness :
    ("TX" ≠ "") ∧
    nominatimW6 "Austin, TX, USA" =
      some [{ addressState := some "California", lat := 37, lon := -120 }] ∧
    getCityLocation nominatimW6 "Austin" (some "TX") = none := by
  refine ⟨by decide, by decide, ?_⟩
  exact (getCityLocation_state_constraint nominatimW6 "Austin" "TX"
    [{ addressState := some "California", lat := 37, lon := -120 }]
    (by decide) (by decide)).2 (by decide)

/-- C8: a contact-form submission missing any required field (name, email,
comment or profile name — absent or empty, i.e. falsy) yields HTTP 400
with the `Missing required fields` error and never invokes the email-send
operation. -/
theorem contactPOST_missing_required_field
    (locationEmail : String → Option String) (emailSendSucceeds : Bool)
    (body : ContactBody)
    (h : truthy body.name = false ∨ truthy body.email = false ∨
      truthy body.comment = false ∨ truthy body.profileName = false) :
    contactPOST locationEmail emailSendSucceeds body =
      { status := 400, errorMsg := some "Missing required fields",
        emailTo := none } := by
  unfold contactPOST
  have hfalse : (truthy body.name && truthy body.email && truthy body.comment &&
      truthy body.profileName) = false := by
    rcases h with h | h | h | h <;> simp [h]
  rw [hfalse]
  rfl

/-- A submission with name, email and comment but no profile name. -/
def bodyW8 : ContactBody :=
  { name := some "Jane", email := some "jane@example.com", comment := some "Hi" }

theorem contactPOST_missing_required_field_witness :
    (truthy bodyW8.name = false ∨ truthy bodyW8.email = false ∨
      truthy bodyW8.comment = false ∨ truthy bodyW8.profileName = false) ∧
    contactPOST (fun _ => none) true bodyW8 =
      { status := 400, errorMsg := some "Missing required fields",
        emailTo := none } :=
  ⟨by decide, contactPOST_missing_required_field (fun _ => none) true bodyW8 (by decide)⟩

/-- C9: the distance calculator is symmetric in its two points, and the
distance from any point to itself is zero. -/
theorem calculateDistance_symm_and_self :
    (∀ lat1 lng1 lat2 lng2 : ℝ,
        calculateDistance lat1 lng1 lat2 lng2 =
          calculateDistance lat2 lng2 lat1 lng1) ∧
    (∀ lat lng : ℝ, calculateDistance lat lng lat lng = 0) := by
  constructor
  · intro lat1 lng1 lat2 lng2
    have ha :
        Real.sin (toRad (lat2 - lat1) / 2) * Real.sin (toRad (lat2 - lat1) / 2) +
          Real.cos (toRad lat1) * Real.cos (toRad lat2) *
            (Real.sin (toRad (lng2 - lng1) / 2) * Real.sin (toRad (lng2 - lng1) / 2)) =
        Real.sin (toRad (lat1 - lat2) / 2) * Real.sin (toRad (lat1 - lat2) / 2) +
          Real.cos (toRad lat2) * Real.cos (toRad lat1) *
            (Real.sin (toRad (lng1 - lng2) / 2) * Real.sin (toRad (lng1 - lng2) / 2)) := by
      have h1 : toRad (lat1 - lat2) = -toRad (lat2 - lat1) := by unfold toRad; ring
      have h2 : toRad (lng1 - lng2) = -toRad (lng2 - lng1) := by unfold toRad; ring
      rw [h1, h2, neg_div, neg_div, Real.sin_neg, Real.sin_neg]
      ring
    unfold calculateDistance
    rw [ha]
  · intro lat lng
    have h0 : toRad (lat - lat) = 0 := by unfold toRad; ring
    have h0' : toRad (lng - lng) = 0 := by unfold toRad; ring
    unfold calculateDistance
    rw [h0, h0']
    simp only [zero_div, Real.sin_zero, mul_zero, zero_mul, zero_add, add_zero,
      Real.sqrt_zero, sub_zero, Real.sqrt_one]
    have harg : atan2 0 1 = 0 := by
      unfold atan2
      have : (⟨1, 0⟩ : ℂ) = 1 := Complex.ext rfl rfl
      rw [this, Complex.arg_one]
    rw [harg]
    ring

/-- C10: every profile visible through a public read operation
(`getAllProfiles`, `getProfileById`, `searchProfiles`) has `is_active =
true` — the `is_active = 1` base predicate is part of every read query —
and `deleteProfiles` only flips that flag, so soft-deleted profiles are
never visible. -/
theorem read_operations_only_active :
    (∀ (table : List Profile) (page limit : Nat) (sortBy : SortBy)
        (dir : SortDir) (p : Profile),
        p ∈ (getAllProfiles table page limit sortBy dir).profiles →
        p.is_active = true) ∧
    (∀ (table : List Profile) (id : String) (p : Profile),
        getProfileById table id = some p → p.is_active = true) ∧
    (∀ (env : Env) (params : SearchParams) (p : Profile),
        p ∈ (searchProfiles env params).profiles → p.is_active = true) ∧
    (∀ (table : List Profile) (ids : List String) (p : Profile),
        p ∈ deleteProfiles table ids → p.id ∈ ids → p.is_active = false) := by
  refine ⟨?_, ?_, ?_, ?_⟩
  · intro table page limit sortBy dir p hp
    exact (mem_runQuery hp).2 isActiveCond (by simp)
  · intro table id p hp
    unfold getProfileById at hp
    cases hl : table.filter (fun q => q.id == id && q.is_active) with
    | nil => rw [hl] at hp; cases hp
    | cons a t =>
      rw [hl] at hp
      have hpa : a = p := by cases hp; rfl
      have hmem : a ∈ table.filter (fun q => q.id == id && q.is_active) := by
        rw [hl]; exact List.mem_cons_self a t
      have := (List.mem_filter.mp hmem).2
      rw [hpa] at this
      simp only [Bool.and_eq_true] at this
      exact this.2
  · intro env params p hp
    unfold searchProfiles at hp
    cases hr : activeRadius params with
    | none =>
      rw [hr] at hp
      exact (mem_runQuery hp).2 isActiveCond (by simp [searchConds0])
    | some r =>
      rw [hr] at hp
      dsimp only at hp
      cases hb : radiusBranch env r params (keywordsToSearch params) with
      | earlyEmpty => rw [hb] at hp; simp [emptyPage] at hp
      | conds extra succeeded =>
        rw [hb] at hp
        dsimp only at hp
        exact (mem_runQuery hp).2 isActiveCond (by simp [searchConds0])
  · intro table ids p hp hid
    unfold deleteProfiles at hp
    obtain ⟨q, hq, hqp⟩ := List.mem_map.mp hp
    by_cases h : q.id ∈ ids
    · rw [if_pos h] at hqp
      rw [← hqp]
    · rw [if_neg h] at hqp
      rw [← hqp] at hid
      exact absurd hid h

def envW10 : Env := { table := [pAnn] }

theorem read_operations_only_active_witness :
    (getProfileById [pAnn] "A" = some pAnn ∧ pAnn.is_active = true) ∧
    (pAnn ∈ (searchProfiles envW10 {}).profiles ∧ pAnn.is_active = true) ∧
    (({ pAnn with is_active := false }) ∈ deleteProfiles [pAnn] ["A"] ∧
      ({ pAnn with is_active := false }).id ∈ ["A"] ∧
      ({ pAnn with is_active := false }).is_active = false) :=
  ⟨⟨by decide, read_operations_only_active.2.1 [pAnn] "A" pAnn (by decide)⟩,
   ⟨by decide, read_operations_only_active.2.2.1 envW10 {} pAnn (by decide)⟩,
   ⟨by decide, by decide,
    read_operations_only_active.2.2.2 [pAnn] ["A"]
      ({ pAnn with is_active := false }) (by decide) (by decide)⟩⟩

/-- C3: a radius search whose resolver step determines zero matching
profile identifiers (zip-centered or city-based) returns an immediate
empty page — zero total, zero total pages — as a normal value, short
circuiting before the main count/fetch query. -/
theorem radius_zero_ids_empty_page :
    (∀ (env : Env) (params : SearchParams) (r : ℚ),
        activeRadius params = some r →
        env.preFilterThrows = false →
        0 < (centerZips params).length →
        jsDedup (List.flatten ((centerZips params).map (fun centerZip =>
          env.profilesWithin centerZip r
            (preFilterZip env params (keywordsToSearch params)) none))) = [] →
        searchProfiles env params = emptyPage params.page params.limit) ∧
    (∀ (env : Env) (params : SearchParams) (r : ℚ),
        activeRadius params = some r →
        env.preFilterThrows = false →
        ¬ 0 < (centerZips params).length →
        truthy params.city = true →
        (match getCityLocation env.nominatim (params.city.getD "") params.state with
         | none =>
             (preFilterCity env params (keywordsToSearch params)).map (fun p => p.id)
         | some centerCoords =>
             env.profilesWithin (params.city.getD "") r
               (preFilterCity env params (keywordsToSearch params))
               (some centerCoords)) = [] →
        searchProfiles env params = emptyPage params.page params.limit) := by
  constructor
  · intro env params r hr hth hc hids
    unfold searchProfiles
    rw [hr]
    try dsimp only
    rw [radiusBranch_zip env r params (keywordsToSearch params) hc]
    unfold zipTier3
    rw [hth]
    simp only [Bool.false_eq_true, if_false]
    by_cases hpre : 0 < (preFilterZip env params (keywordsToSearch params)).length
    · rw [if_pos hpre]
      try dsimp only
      rw [hids]
      rfl
    · rw [if_neg hpre]
  · intro env params r hr hth hc hcity hids
    unfold searchProfiles
    rw [hr]
    try dsimp only
    unfold radiusBranch
    rw [if_neg hc, hcity]
    simp only [if_true]
    unfold cityRadiusBranch
    rw [hth]
    simp only [Bool.false_eq_true, if_false]
    by_cases hpre : 0 < (preFilterCity env params (keywordsToSearch params)).length
    · rw [if_pos hpre]
      try dsimp only
      rw [hids]
      rfl
    · rw [if_neg hpre]

def envW3 : Env := { table := [pAnn] }

def paramsW3 : SearchParams := { radius := some 10, zipCode := some "93701" }

theorem radius_zero_ids_empty_page_witness :
    activeRadius paramsW3 = some 10 ∧
    envW3.preFilterThrows = false ∧
    0 < (centerZips paramsW3).length ∧
    jsDedup (List.flatten ((centerZips paramsW3).map (fun centerZip =>
      envW3.profilesWithin centerZip 10
        (preFilterZip envW3 paramsW3 (keywordsToSearch paramsW3)) none))) = [] ∧
    searchProfiles envW3 paramsW3 = emptyPage 1 20 :=
  ⟨by decide, by decide, by decide, by decide,
   radius_zero_ids_empty_page.1 envW3 paramsW3 10 (by decide) (by decide)
     (by decide) (by decide)⟩

/-- C2: for a zip-centered radius search (the spatial-index tier is never
consulted by `searchProfiles`, and the bulk tier always yields no postal
codes), the per-record geocode tier runs, and every profile of the result
page carries an id from that tier's union of within-radius ids — the
radius constraint is never silently dropped (an empty page being the other
possible outcome). -/
theorem zip_radius_tier3_constrains_results
    (env : Env) (params : SearchParams) (r : ℚ) (p : Profile)
    (hr : activeRadius params = some r)
    (hth : env.preFilterThrows = false)
    (hc : 0 < (centerZips params).length)
    (hp : p ∈ (searchProfiles env params).profiles) :
    p.id ∈ jsDedup (List.flatten ((centerZips params).map (fun centerZip =>
      env.profilesWithin centerZip r
        (preFilterZip env params (keywordsToSearch params)) none))) := by
  unfold searchProfiles at hp
  rw [hr] at hp
  try dsimp only at hp
  rw [radiusBranch_zip env r params (keywordsToSearch params) hc] at hp
  unfold zipTier3 at hp
  rw [hth] at hp
  simp only [Bool.false_eq_true, if_false] at hp
  by_cases hpre : 0 < (preFilterZip env params (keywordsToSearch params)).length
  · rw [if_pos hpre] at hp
    try dsimp only at hp
    by_cases hil : (jsDedup (List.flatten ((centerZips params).map (fun centerZip =>
        env.profilesWithin centerZip r
          (preFilterZip env params (keywordsToSearch params)) none)))).length = 0
    · rw [if_pos hil] at hp
      simp [emptyPage] at hp
    · rw [if_neg hil] at hp
      try dsimp only at hp
      have h := (mem_runQuery hp).2
        (fun q => (jsDedup (List.flatten ((centerZips params).map (fun centerZip =>
          env.profilesWithin centerZip r
            (preFilterZip env params (keywordsToSearch params)) none)))).contains q.id)
        (by simp)
      simpa using h
  · rw [if_neg hpre] at hp
    simp [emptyPage] at hp

def envW2 : Env where
  table := [pAnn]
  profilesWithin := fun _ _ rows _ => rows.map (fun p => p.id)

def paramsW2 : SearchParams := { radius := some 10, zipCode := some "93701" }

theorem zip_radius_tier3_constrains_results_witness :
    activeRadius paramsW2 = some 10 ∧
    envW2.preFilterThrows = false ∧
    0 < (centerZips paramsW2).length ∧
    pAnn ∈ (searchProfiles envW2 paramsW2).profiles ∧
    pAnn.id ∈ jsDedup (List.flatten ((centerZips paramsW2).map (fun centerZip =>
      envW2.profilesWithin centerZip 10
        (preFilterZip envW2 paramsW2 (keywordsToSearch paramsW2)) none))) :=
  ⟨by decide, by decide, by decide, by decide,
   zip_radius_tier3_constrains_results envW2 paramsW2 10 pAnn (by decide)
     (by decide) (by decide) (by decide)⟩

/-- C7: a city-based radius search (active radius, no center zip codes,
truthy city) with a non-empty pre-filtered candidate set whose city
geocoding fails returns exactly the pre-filtered (non-radius) candidate
set — same total, and every returned profile belongs to it — rather than
erroring or returning empty (assuming, as the schema guarantees, distinct
profile ids). -/
theorem city_radius_geocode_failure_returns_prefiltered
    (env : Env) (params : SearchParams) (r : ℚ)
    (hr : activeRadius params = some r)
    (hth : env.preFilterThrows = false)
    (hc : ¬ 0 < (centerZips params).length)
    (hcity : truthy params.city = true)
    (hgeo : getCityLocation env.nominatim (params.city.getD "") params.state = none)
    (hpre : 0 < (preFilterCity env params (keywordsToSearch params)).length)
    (hnod : (env.table.map (fun p => p.id)).Nodup) :
    (searchProfiles env params).total =
        (preFilterCity env params (keywordsToSearch params)).length ∧
      ∀ p ∈ (searchProfiles env params).profiles,
        p ∈ preFilterCity env params (keywordsToSearch params) := by
  have hlen0 :
      ¬ ((preFilterCity env params (keywordsToSearch params)).map
          (fun p => p.id)).length = 0 := by
    rw [List.length_map]
    omega
  have hrun : searchProfiles env params =
      runQuery env.table
        (searchConds0 params ++
          [fun q => ((preFilterCity env params (keywordsToSearch params)).map
            (fun p => p.id)).contains q.id] ++
          fallbackConds params true ++ officeCondList params.office)
        params.sortBy params.sortDirection params.page params.limit
        ((params.page - 1) * params.limit) := by
    unfold searchProfiles
    rw [hr]
    try dsimp only
    unfold radiusBranch
    rw [if_neg hc, hcity]
    simp only [if_true]
    unfold cityRadiusBranch
    rw [hth]
    simp only [Bool.false_eq_true, if_false]
    rw [if_pos hpre]
    try dsimp only
    rw [hgeo]
    try dsimp only
    rw [if_neg hlen0]
  have hfc : fallbackConds params true = [] := by
    unfold fallbackConds
    simp
  have hfilter : env.table.filter (fun q =>
      ((searchConds0 params ++
        ([fun q => ((preFilterCity env params (keywordsToSearch params)).map
          (fun p => Profile.id p)).contains q.id] : List (Profile → Bool)) ++
        fallbackConds params true ++ officeCondList params.office)).all
        (fun c => c q)) = preFilterCity env params (keywordsToSearch params) := by
    conv_rhs => rw [preFilterCity]
    apply List.filter_congr
    intro x hx
    by_cases hRHS :
        (cityPreConds params (keywordsToSearch params)).all (fun c => c x) = true
    · rw [hRHS]
      rw [List.all_eq_true]
      intro c hcmem
      rw [hfc] at hcmem
      simp only [List.append_nil, List.mem_append, List.mem_singleton] at hcmem
      rcases hcmem with (hcs | hceq) | hco
      · have hmem2 : c ∈ cityPreConds params (keywordsToSearch params) := by
          simp only [searchConds0, List.mem_append, List.mem_singleton] at hcs
          simp only [cityPreConds, zipPreConds, List.mem_append, List.mem_singleton]
          tauto
        exact List.all_eq_true.mp hRHS c hmem2
      · subst hceq
        have hxpre : x ∈ preFilterCity env params (keywordsToSearch params) := by
          unfold preFilterCity
          exact List.mem_filter.mpr ⟨hx, hRHS⟩
        have : x.id ∈ (preFilterCity env params (keywordsToSearch params)).map
            (fun p => p.id) := List.mem_map_of_mem _ hxpre
        simpa using this
      · have hmem2 : c ∈ cityPreConds params (keywordsToSearch params) := by
          simp only [cityPreConds, zipPreConds, List.mem_append]
          tauto
        exact List.all_eq_true.mp hRHS c hmem2
    · rw [Bool.not_eq_true] at hRHS
      rw [hRHS]
      rw [Bool.eq_false_iff]
      intro hL
      have hcont : ((preFilterCity env params (keywordsToSearch params)).map
          (fun p => p.id)).contains x.id = true := by
        refine List.all_eq_true.mp hL
          (fun q => ((preFilterCity env params (keywordsToSearch params)).map
            (fun p => p.id)).contains q.id) ?_
        simp
      have hxid : x.id ∈ (preFilterCity env params (keywordsToSearch params)).map
          (fun p => p.id) := by simpa using hcont
      obtain ⟨q, hqpre, hqid⟩ := List.mem_map.mp hxid
      have hqtab : q ∈ env.table ∧
          (cityPreConds params (keywordsToSearch params)).all (fun c => c q) = true := by
        have := hqpre
        unfold preFilterCity at this
        exact List.mem_filter.mp this
      have hxq : q = x := List.inj_on_of_nodup_map hnod hqtab.1 hx hqid
      rw [← hxq] at hRHS
      rw [hqtab.2] at hRHS
      cases hRHS
  constructor
  · rw [hrun]
    show (env.table.filter _).length = _
    rw [hfilter]
  · intro p hp
    rw [hrun] at hp
    have := mem_runQuery_filter hp
    rw [hfilter] at this
    exact this

def envW7 : Env := { table := [pAnn] }

def paramsW7 : SearchParams := { radius := some 10, city := some "Fresno" }

theorem city_radius_geocode_failure_returns_prefiltered_witness :
    activeRadius paramsW7 = some 10 ∧
    (¬ 0 < (centerZips paramsW7).length) ∧
    truthy paramsW7.city = true ∧
    getCityLocation envW7.nominatim (paramsW7.city.getD "") paramsW7.state = none ∧
    0 < (preFilterCity envW7 paramsW7 (keywordsToSearch paramsW7)).length ∧
    ((searchProfiles envW7 paramsW7).total =
        (preFilterCity envW7 paramsW7 (keywordsToSearch paramsW7)).length ∧
      ∀ p ∈ (searchProfiles envW7 paramsW7).profiles,
        p ∈ preFilterCity envW7 paramsW7 (keywordsToSearch paramsW7)) :=
  ⟨by decide, by decide, by decide, by decide, by decide,
   city_radius_geocode_failure_returns_prefiltered envW7 paramsW7 10 (by decide)
     (by decide) (by decide) (by decide) (by decide) (by decide) (by decide)⟩

/-- Environment of the C1 counterexample: one active California profile;
the zip API resolves 44289 to Ohio; the pre-filter query throws, so every
radius tier fails. -/
def envC1 : Env where
  table := [pAnn]
  api := fun z => if z = "44289" then some ohioPlace else none
  preFilterThrows := true

def paramsC1 : SearchParams := { radius := some 25, zipCode := some "44289" }

/-- C1 counterexample: a radius search centered on zip 44289 with no
request state, where every tier fails.  The state `OH` is derivable from
geocoding the first center zip (`derivedStateFilter` computes it), yet the
search returns the California profile — no state-only location filter is
applied, because the fallback of line 623 of `db/index.ts` tests the
request `state`, not the derived `stateFilter`. -/
theorem radius_fallback_ignores_derived_state :
    derivedStateFilter envC1 paramsC1.state (centerZips paramsC1) = some "OH" ∧
    pAnn.state = "CA" ∧
    sqlEq pAnn.state "OH" = false ∧
    searchProfiles envC1 paramsC1 =
      { profiles := [pAnn], total := 1, page := 1, limit := 20, totalPages := 1 } :=
  ⟨by decide, by decide, by decide, by decide⟩

/-- C1 (amended): if a radius search is attempted and no tier produces a
usable filter, the search degrades to a state-only location filter only
when a (truthy) state was supplied in the request; a state merely
derivable from geocoding the first center postal code is never applied to
the fallback. -/
theorem radius_fallback_state_only_when_supplied
    (env : Env) (params : SearchParams) (r : ℚ) (s : String)
    (hr : activeRadius params = some r)
    (hs : params.state = some s)
    (hsne : s ≠ "")
    (hth : env.preFilterThrows = true) :
    ∀ p ∈ (searchProfiles env params).profiles,
      sqlEq p.state (toUpperStr s) = true := by
  intro p hp
  unfold searchProfiles at hp
  rw [hr] at hp
  try dsimp only at hp
  rw [radiusBranch_throws env r params (keywordsToSearch params) hth] at hp
  try dsimp only at hp
  have htr : truthy params.state = true := by
    rw [hs]
    simp only [truthy, Bool.not_eq_true']
    exact Bool.eq_false_iff.mpr (fun h => hsne ((String.isEmpty_iff s).mp h))
  have hfb : fallbackConds params false =
      [fun p => sqlEq p.state (toUpperStr (params.state.getD ""))] := by
    unfold fallbackConds
    rw [htr]
    rfl
  rw [hfb] at hp
  have h := (mem_runQuery hp).2
    (fun q => sqlEq q.state (toUpperStr (params.state.getD ""))) (by simp)
  rw [hs] at h
  simpa using h

def envW1 : Env where
  table := [pAnn]
  preFilterThrows := true

def paramsW1 : SearchParams :=
  { radius := some 10, zipCode := some "93701", state := some "CA" }

theorem radius_fallback_state_only_when_supplied_witness :
    activeRadius paramsW1 = some 10 ∧
    paramsW1.state = some "CA" ∧
    ("CA" ≠ "") ∧
    envW1.preFilterThrows = true ∧
    ∀ p ∈ (searchProfiles envW1 paramsW1).profiles,
      sqlEq p.state (toUpperStr "CA") = true :=
  ⟨by decide, rfl, by decide, rfl,
   radius_fallback_state_only_when_supplied envW1 paramsW1 10 "CA" (by decide)
     rfl (by decide) rfl⟩

/-- Environment of the C4 counterexample: one active profile whose
profession type strictly contains `Manager`. -/
def envC4 : Env := { table := [pMgr] }

def paramsC4 : SearchParams := { professionTypes := some ["Manager"] }

/-- C4 counterexample: the specification's case-insensitive contains-match
accepts the profile (`Manager` occurs inside `Senior Property Manager`),
but `searchProfiles` — whose profession predicate is `profession_type LIKE
@prof` with the raw profession as the whole pattern, no `%` wrapping —
excludes it, returning an empty page. -/
theorem profession_predicate_not_contains :
    professionContainsSpec ["Manager"] pMgr.profession_type = true ∧
    pMgr.is_active = true ∧
    searchProfiles envC4 paramsC4 =
      { profiles := [], total := 0, page := 1, limit := 20, totalPages := 0 } :=
  ⟨by decide, by decide, by decide⟩

/-- C4 (amended): for every search with a non-empty profession-type list,
the profession predicate of `searchProfiles` is the OR, over the listed
professions, of a case-insensitive `LIKE` match with the profession string
as the entire pattern (an exact case-insensitive match whenever the
profession contains no wildcards) — not a contains-match: every returned
profile satisfies that disjunction. -/
theorem profession_predicate_exact_like
    (env : Env) (params : SearchParams) (ps : List String) (p : Profile)
    (hps : params.professionTypes = some ps)
    (hlen : 0 < ps.length)
    (hp : p ∈ (searchProfiles env params).profiles) :
    ps.any (fun prof => sqlLike prof p.profession_type) = true := by
  have hmem : profCond ps ∈ searchConds0 params := by
    simp [searchConds0, profCondList, hps, hlen]
  unfold searchProfiles at hp
  cases hr : activeRadius params with
  | none =>
    rw [hr] at hp
    try dsimp only at hp
    exact (mem_runQuery hp).2 (profCond ps) (by simp [hmem])
  | some r =>
    rw [hr] at hp
    try dsimp only at hp
    cases hb : radiusBranch env r params (keywordsToSearch params) with
    | earlyEmpty => rw [hb] at hp; simp [emptyPage] at hp
    | conds extra succeeded =>
      rw [hb] at hp
      try dsimp only at hp
      exact (mem_runQuery hp).2 (profCond ps) (by simp [hmem])

def envW4 : Env := { table := [pAnn] }

def paramsW4 : SearchParams := { professionTypes := some ["Leasing Consultant"] }

theorem profession_predicate_exact_like_witness :
    paramsW4.professionTypes = some ["Leasing Consultant"] ∧
    0 < (["Leasing Consultant"] : List String).length ∧
    pAnn ∈ (searchProfiles envW4 paramsW4).profiles ∧
    (["Leasing Consultant"] : List String).any
      (fun prof => sqlLike prof pAnn.profession_type) = true :=
  ⟨rfl, by decide, by decide,
   profession_predicate_exact_like envW4 paramsW4 ["Leasing Consultant"] pAnn
     rfl (by decide) (by decide)⟩

end InterTalent
